import Mathlib

/-! VeriFynger: the configuration header `src/Config.h`

A shallow embedding of the enumerations, constants, structures and helper
macros of `Config.h`, followed by the properties the design document states
about them.

Conventions
* a C `enum` becomes an inductive type with one constructor per enumerator
  (same names) and a function giving the enumerator's numeric value;
* a `#define` constant becomes a `def` of the same name;
* a fixed-width unsigned field becomes a `Fin (2 ^ w)`; storing a wider value
  into it reduces the value modulo `2 ^ w`, as the C conversion does.
-/

namespace VeriFynger

/-! ## Enumerations -/

/-- Enumerators of `enum SensorType` (Config.h, lines 96-102). `SENSOR_COUNT`
is an enumerator of the same enum in the source, so it is a constructor here. -/
inductive SensorType
  | SENSOR_FPM10A
  | SENSOR_AS608
  | SENSOR_ZW101
  | SENSOR_COUNT
  deriving DecidableEq, Fintype

/-- Numeric value of a `SensorType` enumerator. -/
def SensorType.toNat : SensorType → Nat
  | .SENSOR_FPM10A => 0
  | .SENSOR_AS608 => 1
  | .SENSOR_ZW101 => 2
  | .SENSOR_COUNT => 3

/-- Every enumerator of `enum SensorType`, in source order. -/
def SensorType.enumerators : List SensorType :=
  [.SENSOR_FPM10A, .SENSOR_AS608, .SENSOR_ZW101, .SENSOR_COUNT]

/-- The enumerators that name a sensor: all of them except the `SENSOR_COUNT`
sentinel. -/
def SensorType.sensors : List SensorType :=
  SensorType.enumerators.filter (fun s => decide (s ≠ .SENSOR_COUNT))

/-- Enumerators of `enum SystemMode` (Config.h, lines 138-144). -/
inductive SystemMode
  | MODE_IDLE
  | MODE_ENROLL
  | MODE_PRESENSI
  | MODE_ADMIN
  deriving DecidableEq, Fintype

/-- Numeric value of a `SystemMode` enumerator. -/
def SystemMode.toNat : SystemMode → Nat
  | .MODE_IDLE => 0
  | .MODE_ENROLL => 1
  | .MODE_PRESENSI => 2
  | .MODE_ADMIN => 3

/-- Every enumerator of `enum SystemMode`, in source order. -/
def SystemMode.enumerators : List SystemMode :=
  [.MODE_IDLE, .MODE_ENROLL, .MODE_PRESENSI, .MODE_ADMIN]

/-- Enumerators of `enum SystemState` (Config.h, lines 147-159). -/
inductive SystemState
  | STATE_STARTUP
  | STATE_INIT
  | STATE_WIFI_CONNECT
  | STATE_MQTT_CONNECT
  | STATE_IDLE
  | STATE_WAITING_FINGER
  | STATE_PROCESSING
  | STATE_WAITING_RESPONSE
  | STATE_SUCCESS
  | STATE_ERROR
  deriving DecidableEq, Fintype

/-- Numeric value of a `SystemState` enumerator. -/
def SystemState.toNat : SystemState → Nat
  | .STATE_STARTUP => 0
  | .STATE_INIT => 1
  | .STATE_WIFI_CONNECT => 2
  | .STATE_MQTT_CONNECT => 3
  | .STATE_IDLE => 4
  | .STATE_WAITING_FINGER => 5
  | .STATE_PROCESSING => 6
  | .STATE_WAITING_RESPONSE => 7
  | .STATE_SUCCESS => 8
  | .STATE_ERROR => 9

/-- Every enumerator of `enum SystemState`, in source order. -/
def SystemState.enumerators : List SystemState :=
  [.STATE_STARTUP, .STATE_INIT, .STATE_WIFI_CONNECT, .STATE_MQTT_CONNECT, .STATE_IDLE,
   .STATE_WAITING_FINGER, .STATE_PROCESSING, .STATE_WAITING_RESPONSE, .STATE_SUCCESS,
   .STATE_ERROR]

/-- Enumerators of `enum ErrorCode` (Config.h, lines 222-240). -/
inductive ErrorCode
  | ERR_NONE
  | ERR_SENSOR_TIMEOUT
  | ERR_SENSOR_NOT_FOUND
  | ERR_SENSOR_BAD_IMAGE
  | ERR_SENSOR_NO_MATCH
  | ERR_SENSOR_COMM_ERROR
  | ERR_WIFI_DISCONNECTED
  | ERR_WIFI_TIMEOUT
  | ERR_MQTT_DISCONNECTED
  | ERR_MQTT_TIMEOUT
  | ERR_MQTT_PARSE_ERROR
  | ERR_LOW_MEMORY
  | ERR_RELAY_STUCK
  | ERR_TEMPLATE_ENCODE_ERROR
  | ERR_UNKNOWN_COMMAND
  | ERR_ZW101_NOT_SUPPORTED
  deriving DecidableEq, Fintype

/-- Numeric value of an `ErrorCode` enumerator. -/
def ErrorCode.toNat : ErrorCode → Nat
  | .ERR_NONE => 0
  | .ERR_SENSOR_TIMEOUT => 1
  | .ERR_SENSOR_NOT_FOUND => 2
  | .ERR_SENSOR_BAD_IMAGE => 3
  | .ERR_SENSOR_NO_MATCH => 4
  | .ERR_SENSOR_COMM_ERROR => 5
  | .ERR_WIFI_DISCONNECTED => 10
  | .ERR_WIFI_TIMEOUT => 11
  | .ERR_MQTT_DISCONNECTED => 12
  | .ERR_MQTT_TIMEOUT => 13
  | .ERR_MQTT_PARSE_ERROR => 14
  | .ERR_LOW_MEMORY => 20
  | .ERR_RELAY_STUCK => 21
  | .ERR_TEMPLATE_ENCODE_ERROR => 22
  | .ERR_UNKNOWN_COMMAND => 23
  | .ERR_ZW101_NOT_SUPPORTED => 30

/-- Every enumerator of `enum ErrorCode`, in source order. -/
def ErrorCode.enumerators : List ErrorCode :=
  [.ERR_NONE, .ERR_SENSOR_TIMEOUT, .ERR_SENSOR_NOT_FOUND, .ERR_SENSOR_BAD_IMAGE,
   .ERR_SENSOR_NO_MATCH, .ERR_SENSOR_COMM_ERROR, .ERR_WIFI_DISCONNECTED, .ERR_WIFI_TIMEOUT,
   .ERR_MQTT_DISCONNECTED, .ERR_MQTT_TIMEOUT, .ERR_MQTT_PARSE_ERROR, .ERR_LOW_MEMORY,
   .ERR_RELAY_STUCK, .ERR_TEMPLATE_ENCODE_ERROR, .ERR_UNKNOWN_COMMAND,
   .ERR_ZW101_NOT_SUPPORTED]

/-- The error codes proper: every enumerator except `ERR_NONE`. -/
def ErrorCode.errors : List ErrorCode :=
  ErrorCode.enumerators.filter (fun e => decide (e ≠ .ERR_NONE))

/-! ## Error layers of the design document (section 7) -/

/-- The five error groups of the design document's error taxonomy, in the
order the document lists them. -/
inductive ErrorLayer
  | sensor
  | network
  | resource
  | protocol
  | capability
  deriving DecidableEq, Fintype

/-- The five groups in the order of the document. -/
def ErrorLayer.layers : List ErrorLayer :=
  [.sensor, .network, .resource, .protocol, .capability]

/-- Members of each group, as the document names them: sensor-layer (timeout,
not-found, bad-image, no-match, comm-error), network-layer (wifi-disconnected,
wifi-timeout, mqtt-disconnected, mqtt-timeout, mqtt-parse-error),
resource-layer (low-memory, relay-stuck), protocol-layer
(template-encode-error, unknown-command), capability-layer
(unsupported-sensor-feature). -/
def ErrorLayer.members : ErrorLayer → List ErrorCode
  | .sensor => [.ERR_SENSOR_TIMEOUT, .ERR_SENSOR_NOT_FOUND, .ERR_SENSOR_BAD_IMAGE,
      .ERR_SENSOR_NO_MATCH, .ERR_SENSOR_COMM_ERROR]
  | .network => [.ERR_WIFI_DISCONNECTED, .ERR_WIFI_TIMEOUT, .ERR_MQTT_DISCONNECTED,
      .ERR_MQTT_TIMEOUT, .ERR_MQTT_PARSE_ERROR]
  | .resource => [.ERR_LOW_MEMORY, .ERR_RELAY_STUCK]
  | .protocol => [.ERR_TEMPLATE_ENCODE_ERROR, .ERR_UNKNOWN_COMMAND]
  | .capability => [.ERR_ZW101_NOT_SUPPORTED]

/-- The first group, in document order, that lists the error code. -/
def ErrorLayer.layerOf (e : ErrorCode) : Option ErrorLayer :=
  ErrorLayer.layers.find? (fun l => decide (e ∈ l.members))

/-- The numeric values of the codes of a group. -/
def ErrorLayer.codes (l : ErrorLayer) : List Nat :=
  l.members.map ErrorCode.toNat

/-! ## MQTT topics (Config.h, lines 41-58) -/

/-- The macro `TOPIC_CMD_MODE`. -/
def TOPIC_CMD_MODE : String := "verifynger/command/mode"
/-- The macro `TOPIC_CMD_ENROLL`. -/
def TOPIC_CMD_ENROLL : String := "verifynger/command/enroll"
/-- The macro `TOPIC_CMD_SENSOR`. -/
def TOPIC_CMD_SENSOR : String := "verifynger/command/sensor"
/-- The macro `TOPIC_CMD_RELAY`. -/
def TOPIC_CMD_RELAY : String := "verifynger/command/relay"
/-- The macro `TOPIC_RES_TEMPLATE`. -/
def TOPIC_RES_TEMPLATE : String := "verifynger/response/template"
/-- The macro `TOPIC_RES_STATUS`. -/
def TOPIC_RES_STATUS : String := "verifynger/response/status"
/-- The macro `TOPIC_RES_ERROR`. -/
def TOPIC_RES_ERROR : String := "verifynger/response/error"
/-- The macro `TOPIC_VERIFY_REQUEST`. -/
def TOPIC_VERIFY_REQUEST : String := "verifynger/verify/request"
/-- The macro `TOPIC_VERIFY_RESPONSE`. -/
def TOPIC_VERIFY_RESPONSE : String := "verifynger/verify/response"
/-- The macro `TOPIC_SYS_HEALTH`. -/
def TOPIC_SYS_HEALTH : String := "verifynger/system/health"
/-- The macro `TOPIC_SYS_CONFIG`. -/
def TOPIC_SYS_CONFIG : String := "verifynger/system/config"
/-- The macro `TOPIC_SENSOR_METRICS`. -/
def TOPIC_SENSOR_METRICS : String := "verifynger/sensor/metrics"

/-- The twelve `TOPIC_*` macros of the header, in source order. -/
def topics : List String :=
  [TOPIC_CMD_MODE, TOPIC_CMD_ENROLL, TOPIC_CMD_SENSOR, TOPIC_CMD_RELAY,
   TOPIC_RES_TEMPLATE, TOPIC_RES_STATUS, TOPIC_RES_ERROR,
   TOPIC_VERIFY_REQUEST, TOPIC_VERIFY_RESPONSE,
   TOPIC_SYS_HEALTH, TOPIC_SYS_CONFIG, TOPIC_SENSOR_METRICS]

/-- Whether the string `s` starts with the characters of `p`. -/
def startsWith (p s : String) : Bool :=
  p.data.isPrefixOf s.data

/-- The configured topics that start with `p`, in source order. -/
def topicsUnder (p : String) : List String :=
  topics.filter (startsWith p)

/-! ## Constants -/

/-- The macro `RELAY_PIN` (line 88). -/
def RELAY_PIN : Nat := 18
/-- The macro `RELAY_ACTIVE_HIGH` (line 126). -/
def RELAY_ACTIVE_HIGH : Bool := true
/-- The macro `FINGER_TIMEOUT_ENROLL` (line 162), milliseconds. -/
def FINGER_TIMEOUT_ENROLL : Nat := 10000
/-- The macro `FINGER_TIMEOUT_VERIFY` (line 163), milliseconds. -/
def FINGER_TIMEOUT_VERIFY : Nat := 5000
/-- The macro `MQTT_RESPONSE_TIMEOUT` (line 164), milliseconds. -/
def MQTT_RESPONSE_TIMEOUT : Nat := 3000
/-- The macro `MAX_FINGER_RETRY` (line 169). -/
def MAX_FINGER_RETRY : Nat := 3
/-- The macro `MAX_TEMPLATE_RETRY` (line 170). -/
def MAX_TEMPLATE_RETRY : Nat := 2
/-- The macro `TEMPLATE_SIZE` (line 174), bytes. -/
def TEMPLATE_SIZE : Nat := 512
/-- The macro `JSON_BUFFER_SIZE` (line 203). -/
def JSON_BUFFER_SIZE : Nat := 2048
/-- The macro `BASE64_BUFFER_SIZE` (line 204). -/
def BASE64_BUFFER_SIZE : Nat := 1024
/-- The macro `WATCHDOG_TIMEOUT` (line 212), milliseconds. -/
def WATCHDOG_TIMEOUT : Nat := 30000

/-! ## Structures -/

/-- The structure `SensorStatus` (lines 274-280): `bool connected`,
`uint16_t templateCount`, `uint8_t lastError`, `uint32_t lastScanTime`. -/
structure SensorStatus where
  connected : Bool
  templateCount : Fin 65536
  lastError : Fin 256
  lastScanTime : Fin 4294967296

/-- The assignment `status.lastError = e` for an `ErrorCode` `e`: the
enumerator's value is converted to `uint8_t`, that is, taken modulo 256. -/
def SensorStatus.setLastError (s : SensorStatus) (e : ErrorCode) : SensorStatus :=
  { s with lastError := ⟨e.toNat % 256, Nat.mod_lt _ (by decide)⟩ }

/-- The stored `lastError` read back as a number. -/
def SensorStatus.getLastError (s : SensorStatus) : Nat :=
  s.lastError.val

/-! ## Relay macros (Config.h, lines 247-249) -/

/-- The Arduino constant `HIGH`. -/
def HIGH : Nat := 1
/-- The Arduino constant `LOW`. -/
def LOW : Nat := 0

/-- The C operator `!` on an integer level. -/
def lnot (v : Nat) : Nat :=
  if v = 0 then 1 else 0

/-- Output level of every GPIO pin, by pin number. -/
abbrev PinLevels := Nat → Nat

/-- Modelled from the spec: `digitalWrite` is declared by `<Arduino.h>`, which
Config.h includes and which is not among the sources. `digitalWrite(pin, val)`
sets the output level of `pin` to `val` and touches no other pin. -/
def digitalWrite (pin val : Nat) (levels : PinLevels) : PinLevels :=
  fun p => if p = pin then val else levels p

/-- The body of the macro `RELAY_ON()` with the polarity flag as an argument:
`digitalWrite(RELAY_PIN, RELAY_ACTIVE_HIGH ? HIGH : LOW)`. -/
def relayOnWith (activeHigh : Bool) (levels : PinLevels) : PinLevels :=
  digitalWrite RELAY_PIN (if activeHigh then HIGH else LOW) levels

/-- The body of the macro `RELAY_OFF()` with the polarity flag as an argument:
`digitalWrite(RELAY_PIN, RELAY_ACTIVE_HIGH ? LOW : HIGH)`. -/
def relayOffWith (activeHigh : Bool) (levels : PinLevels) : PinLevels :=
  digitalWrite RELAY_PIN (if activeHigh then LOW else HIGH) levels

/-- The macro `RELAY_ON()` as configured. -/
def RELAY_ON (levels : PinLevels) : PinLevels :=
  relayOnWith RELAY_ACTIVE_HIGH levels

/-- The macro `RELAY_OFF()` as configured. -/
def RELAY_OFF (levels : PinLevels) : PinLevels :=
  relayOffWith RELAY_ACTIVE_HIGH levels

/-- The level that leaves the relay de-energised under the given polarity. -/
def deEnergisedLevel (activeHigh : Bool) : Nat :=
  if activeHigh then LOW else HIGH

/-! ## Worst-case operation durations -/

/-- Worst case of a verification: every capture attempt of the retry budget
runs to `FINGER_TIMEOUT_VERIFY`, then the response wait runs to its limit. -/
def verifyWorstCase : Nat :=
  MAX_FINGER_RETRY * FINGER_TIMEOUT_VERIFY + MQTT_RESPONSE_TIMEOUT

/-- Worst case of one enrollment capture: every attempt of the retry budget
runs to `FINGER_TIMEOUT_ENROLL`. -/
def enrollCaptureWorstCase : Nat :=
  MAX_FINGER_RETRY * FINGER_TIMEOUT_ENROLL

/-- Worst case of an enrollment: two captures, each with the full retry budget
at `FINGER_TIMEOUT_ENROLL`, then the acknowledgement wait at its limit. -/
def enrollWorstCase : Nat :=
  2 * MAX_FINGER_RETRY * FINGER_TIMEOUT_ENROLL + MQTT_RESPONSE_TIMEOUT

/-! ## Capture retry loop -/

/-- What one capture attempt reports, among the results whose handling the
design document states (section 4.1). -/
inductive CaptureResult
  | GOOD
  | BAD_IMAGE
  | COMM_ERROR
  deriving DecidableEq

/-- How a capture ended: the number of attempts made and the error reported
(`ERR_NONE` when an image was captured). -/
structure CaptureOutcome where
  attempts : Nat
  error : ErrorCode
  deriving DecidableEq

/-- Modelled from the spec: the capture loop of `captureAndBuildTemplate`
(section 4.1), whose code is not among the sources. `results n` is what
attempt `n` (numbered from 1) reports; `remaining` attempts are left and `made`
were made. A good image ends the capture, a bad image retries at once, a
communication error is surfaced without retry, and an exhausted budget fails
with the last bad-image error. -/
def captureLoop (results : Nat → CaptureResult) : (remaining made : Nat) → CaptureOutcome
  | 0, made => { attempts := made, error := .ERR_SENSOR_BAD_IMAGE }
  | remaining + 1, made =>
    match results (made + 1) with
    | .GOOD => { attempts := made + 1, error := .ERR_NONE }
    | .COMM_ERROR => { attempts := made + 1, error := .ERR_SENSOR_COMM_ERROR }
    | .BAD_IMAGE => captureLoop results remaining (made + 1)

/-- Modelled from the spec: a capture with the budget of `MAX_FINGER_RETRY`
attempts (section 4.1). -/
def capture (results : Nat → CaptureResult) : CaptureOutcome :=
  captureLoop results MAX_FINGER_RETRY 0

/-- Attempt `n` (numbered from 1) is made when the sensor reports `results`. -/
def attemptMade (results : Nat → CaptureResult) (n : Nat) : Prop :=
  1 ≤ n ∧ n ≤ (capture results).attempts

/-- A sensor that reports a bad image on the first `k` attempts and a good
image afterwards. -/
def badThenGood (k : Nat) : Nat → CaptureResult :=
  fun n => if n ≤ k then .BAD_IMAGE else .GOOD

/-! ## Base64 -/

/-- The 64 characters of the standard Base64 alphabet (RFC 4648, table 1). -/
def base64Alphabet : List Char :=
  "ABCDEFGHIJKLMNOPQRSTUVWXYZabcdefghijklmnopqrstuvwxyz0123456789+/".data

/-- The character of a 6-bit value. -/
def base64Char (n : Nat) : Char :=
  base64Alphabet.getD (n % 64) 'A'

/-- Modelled from the spec: the Base64 encoder that fills the buffer of
`BASE64_BUFFER_SIZE` bytes is not among the sources; this is the standard
padded encoding (RFC 4648, section 4) of a list of bytes: each group of three
bytes gives four characters, and a last group of one or two bytes is padded
with `=` to four characters. -/
def encodeBase64 : List Nat → List Char
  | [] => []
  | [a] => [base64Char (a / 4), base64Char (a % 4 * 16), '=', '=']
  | [a, b] =>
    [base64Char (a / 4), base64Char (a % 4 * 16 + b / 16), base64Char (b % 16 * 4), '=']
  | a :: b :: c :: rest =>
    base64Char (a / 4) :: base64Char (a % 4 * 16 + b / 16)
      :: base64Char (b % 16 * 4 + c / 64) :: base64Char (c % 64) :: encodeBase64 rest

/-- Bytes needed to hold the encoded template as a C string: the characters
and the terminating NUL. -/
def encodedTemplateBytes : Nat :=
  4 * ((TEMPLATE_SIZE + 2) / 3) + 1

/-! ## Shared lemmas -/

/-- An error code fits in eight bits. -/
theorem ErrorCode.toNat_lt (e : ErrorCode) : e.toNat < 256 := by
  cases e <;> decide

/-- Different error codes have different numeric values. -/
theorem ErrorCode.toNat_injective : ∀ a b : ErrorCode, a.toNat = b.toNat → a = b := by
  decide

/-- Only `ERR_NONE` has the value 0. -/
theorem ErrorCode.toNat_eq_zero (e : ErrorCode) : e.toNat = 0 ↔ e = .ERR_NONE := by
  cases e <;> decide

/-! ## C1: what the configuration enumerates -/

/-- C1. `SystemState` has exactly 10 values numbered 0..9 without gap or
repeat, `SystemMode` exactly 4 numbered 0..3, `SensorType` exactly 3 sensor
values and `SENSOR_COUNT = 3` is their number, and `ErrorCode` has exactly 15
codes besides `ERR_NONE`, with pairwise distinct values, none of them 0, the
value of `ERR_NONE`. -/
theorem config_enumerates_counts :
    ((∀ s : SystemState, s ∈ SystemState.enumerators)
      ∧ SystemState.enumerators.Nodup
      ∧ SystemState.enumerators.length = 10
      ∧ SystemState.enumerators.map SystemState.toNat = List.range 10)
    ∧ ((∀ m : SystemMode, m ∈ SystemMode.enumerators)
      ∧ SystemMode.enumerators.Nodup
      ∧ SystemMode.enumerators.length = 4
      ∧ SystemMode.enumerators.map SystemMode.toNat = List.range 4)
    ∧ ((∀ s : SensorType, s ∈ SensorType.enumerators)
      ∧ SensorType.enumerators.Nodup
      ∧ SensorType.sensors = [.SENSOR_FPM10A, .SENSOR_AS608, .SENSOR_ZW101]
      ∧ SensorType.sensors.length = 3
      ∧ SensorType.SENSOR_COUNT.toNat = 3
      ∧ SensorType.SENSOR_COUNT.toNat = SensorType.sensors.length)
    ∧ ((∀ e : ErrorCode, e ∈ ErrorCode.enumerators)
      ∧ ErrorCode.enumerators.Nodup
      ∧ ErrorCode.errors.length = 15
      ∧ (ErrorCode.errors.map ErrorCode.toNat).Nodup
      ∧ ErrorCode.ERR_NONE.toNat = 0
      ∧ (∀ e : ErrorCode, e ≠ .ERR_NONE → e ∈ ErrorCode.errors ∧ e.toNat ≠ 0)
      ∧ (∀ a b : ErrorCode, a ≠ b → a.toNat ≠ b.toNat)) := by
  refine ⟨⟨?_, ?_, ?_, ?_⟩, ⟨?_, ?_, ?_, ?_⟩, ⟨?_, ?_, ?_, ?_, ?_, ?_⟩,
    ⟨?_, ?_, ?_, ?_, ?_, ?_, ?_⟩⟩ <;> decide

/-! ## C2: the five error groups -/

/-- C2. The five error groups of the document partition the error codes: each
code other than `ERR_NONE` is in exactly one group (and `ERR_NONE` in none),
the groups together hold all 15 codes, and the groups are separated by value:
every code of an earlier group is smaller than every code of a later one, so
the value alone tells the group. -/
theorem error_layers_partition :
    (∀ (e : ErrorCode) (l : ErrorLayer), e ∈ l.members ↔ ErrorLayer.layerOf e = some l)
    ∧ (∀ e : ErrorCode, ErrorLayer.layerOf e = none ↔ e = .ERR_NONE)
    ∧ (∀ e : ErrorCode, e ≠ .ERR_NONE → ∃! l : ErrorLayer, e ∈ l.members)
    ∧ (∀ l : ErrorLayer, l ∈ ErrorLayer.layers)
    ∧ ErrorLayer.layers.map (fun l => l.members.length) = [5, 5, 2, 2, 1]
    ∧ (ErrorLayer.layers.map ErrorLayer.members).flatten.Perm ErrorCode.errors
    ∧ ErrorLayer.layers.Pairwise
        (fun l₁ l₂ => ∀ a ∈ l₁.codes, ∀ b ∈ l₂.codes, a < b)
    ∧ (∀ (a b : ErrorCode) (l₁ l₂ : ErrorLayer),
        a ∈ l₁.members → b ∈ l₂.members → a.toNat = b.toNat → l₁ = l₂) := by
  have h1 : ∀ (e : ErrorCode) (l : ErrorLayer),
      e ∈ l.members ↔ ErrorLayer.layerOf e = some l := by decide
  have h2 : ∀ e : ErrorCode, ErrorLayer.layerOf e = none ↔ e = .ERR_NONE := by decide
  refine ⟨h1, h2, ?_, by decide, by decide, by decide, by decide, ?_⟩
  · intro e he
    cases hl : ErrorLayer.layerOf e with
    | none => exact absurd ((h2 e).1 hl) he
    | some l =>
      refine ⟨l, (h1 e l).2 hl, ?_⟩
      intro l2 hl2
      have := (h1 e l2).1 hl2
      rw [hl] at this
      exact (Option.some.inj this).symm
  · intro a b l₁ l₂ ha hb hab
    have hEq : a = b := ErrorCode.toNat_injective a b hab
    subst hEq
    have e1 := (h1 a l₁).1 ha
    have e2 := (h1 a l₂).1 hb
    rw [e1] at e2
    exact Option.some.inj e2

/-! ## C3: sensor identity is an index below `SENSOR_COUNT` -/

/-- C3. The three sensors map one-to-one onto the indices 0, 1, 2; the index
of a sensor is below `SENSOR_COUNT`, so a table of `SENSOR_COUNT` entries has
an entry at the index of every sensor, and none at index `SENSOR_COUNT`. -/
theorem sensor_index_in_bounds {α : Type} (table : List α) (s : SensorType)
    (hlen : table.length = SensorType.SENSOR_COUNT.toNat) (hs : s ∈ SensorType.sensors) :
    SensorType.sensors.map SensorType.toNat = [0, 1, 2]
    ∧ (∀ t ∈ SensorType.sensors, s.toNat = t.toNat → s = t)
    ∧ s.toNat < SensorType.SENSOR_COUNT.toNat
    ∧ (∃ x, table[s.toNat]? = some x)
    ∧ table[SensorType.SENSOR_COUNT.toNat]? = none
    ∧ SensorType.SENSOR_COUNT ∉ SensorType.sensors := by
  have hlt : s.toNat < SensorType.SENSOR_COUNT.toNat := by
    revert hs; revert s; decide
  refine ⟨by decide, ?_, hlt, ?_, ?_, by decide⟩
  · revert hs; revert s; decide
  · have hb : s.toNat < table.length := by rw [hlen]; exact hlt
    exact ⟨table[s.toNat], List.getElem?_eq_getElem hb⟩
  · exact List.getElem?_eq_none (by rw [hlen])

/-- C3 at a concrete table of three entries and the sensor `SENSOR_ZW101`. -/
theorem sensor_index_in_bounds_witness :
    SensorType.sensors.map SensorType.toNat = [0, 1, 2]
    ∧ (∀ t ∈ SensorType.sensors,
        SensorType.SENSOR_ZW101.toNat = t.toNat → SensorType.SENSOR_ZW101 = t)
    ∧ SensorType.SENSOR_ZW101.toNat < SensorType.SENSOR_COUNT.toNat
    ∧ (∃ x, [10, 20, 30][SensorType.SENSOR_ZW101.toNat]? = some x)
    ∧ [10, 20, 30][SensorType.SENSOR_COUNT.toNat]? = none
    ∧ SensorType.SENSOR_COUNT ∉ SensorType.sensors :=
  sensor_index_in_bounds [10, 20, 30] SensorType.SENSOR_ZW101 (by decide) (by decide)

/-! ## C4: the topics -/

set_option maxRecDepth 100000 in
/-- C4. The twelve topic strings are pairwise distinct and none is a prefix of
another; four (mode, enroll, sensor, relay) are under `verifynger/command/`,
three (template, status, error) under `verifynger/response/`, the two verify
topics under `verifynger/verify/`, the health and config topics under
`verifynger/system/`; the remaining one is the sensor metrics topic. -/
theorem topics_partitioned :
    topics.length = 12
    ∧ topics.Nodup
    ∧ topics.Pairwise (fun a b => startsWith a b = false ∧ startsWith b a = false)
    ∧ topicsUnder "verifynger/command/"
        = [TOPIC_CMD_MODE, TOPIC_CMD_ENROLL, TOPIC_CMD_SENSOR, TOPIC_CMD_RELAY]
    ∧ topicsUnder "verifynger/response/"
        = [TOPIC_RES_TEMPLATE, TOPIC_RES_STATUS, TOPIC_RES_ERROR]
    ∧ topicsUnder "verifynger/verify/" = [TOPIC_VERIFY_REQUEST, TOPIC_VERIFY_RESPONSE]
    ∧ TOPIC_VERIFY_REQUEST ≠ TOPIC_VERIFY_RESPONSE
    ∧ topicsUnder "verifynger/system/" = [TOPIC_SYS_HEALTH, TOPIC_SYS_CONFIG]
    ∧ TOPIC_SYS_HEALTH ≠ TOPIC_SYS_CONFIG
    ∧ topicsUnder "verifynger/sensor/" = [TOPIC_SENSOR_METRICS]
    ∧ (∀ i j : Fin 12, topics.getD i.val "" = topics.getD j.val "" → i = j) := by
  refine ⟨?_, ?_, ?_, ?_, ?_, ?_, ?_, ?_, ?_, ?_, ?_⟩ <;> decide

/-! ## C5: the user id -/

/-- C7. Storing an error code in the 8-bit `lastError` field and reading it
back gives the code's value; different codes give different stored values; the
stored value is 0 exactly for `ERR_NONE`; the other fields are unchanged. -/
theorem lastError_roundtrip (s : SensorStatus) (e e₂ : ErrorCode) :
    (s.setLastError e).getLastError = e.toNat
    ∧ ((s.setLastError e).getLastError = (s.setLastError e₂).getLastError → e = e₂)
    ∧ ((s.setLastError e).getLastError = 0 ↔ e = .ERR_NONE)
    ∧ (s.setLastError e).connected = s.connected
    ∧ (s.setLastError e).templateCount = s.templateCount
    ∧ (s.setLastError e).lastScanTime = s.lastScanTime := by
  have hget : ∀ x : ErrorCode, (s.setLastError x).getLastError = x.toNat := by
    intro x
    show x.toNat % 256 = x.toNat
    exact Nat.mod_eq_of_lt x.toNat_lt
  refine ⟨hget e, ?_, ?_, rfl, rfl, rfl⟩
  · intro h
    rw [hget e, hget e₂] at h
    exact ErrorCode.toNat_injective e e₂ h
  · rw [hget e]
    exact ErrorCode.toNat_eq_zero e

/-! ## C8: the relay macros -/

/-- The pin written by `digitalWrite` has the written level afterwards. -/
theorem digitalWrite_same (pin val : Nat) (levels : PinLevels) :
    digitalWrite pin val levels pin = val := by
  simp [digitalWrite]

/-- A pin other than the written one keeps its level. -/
theorem digitalWrite_other (pin val p : Nat) (levels : PinLevels) (h : p ≠ pin) :
    digitalWrite pin val levels p = levels p := by
  simp [digitalWrite, h]

/-- C8. For either polarity, `RELAY_ON` and `RELAY_OFF` write opposite levels
to `RELAY_PIN` (pin 18) and leave every other pin as it was; as configured,
`RELAY_ON` writes `HIGH` and `RELAY_OFF` writes `LOW`; `RELAY_OFF` after
`RELAY_ON` leaves the pins as `RELAY_OFF` alone does, the relay pin at the
de-energised level. -/
theorem relay_macros_opposite (activeHigh : Bool) (levels : PinLevels) (p : Nat)
    (hp : p ≠ RELAY_PIN) :
    RELAY_PIN = 18
    ∧ relayOnWith activeHigh levels RELAY_PIN = lnot (relayOffWith activeHigh levels RELAY_PIN)
    ∧ relayOffWith activeHigh levels RELAY_PIN = lnot (relayOnWith activeHigh levels RELAY_PIN)
    ∧ relayOnWith activeHigh levels RELAY_PIN ≠ relayOffWith activeHigh levels RELAY_PIN
    ∧ RELAY_ON levels RELAY_PIN = HIGH
    ∧ RELAY_OFF levels RELAY_PIN = LOW
    ∧ relayOnWith activeHigh levels p = levels p
    ∧ relayOffWith activeHigh levels p = levels p
    ∧ RELAY_ON levels p = levels p
    ∧ RELAY_OFF levels p = levels p
    ∧ relayOffWith activeHigh (relayOnWith activeHigh levels) RELAY_PIN
        = deEnergisedLevel activeHigh
    ∧ relayOffWith activeHigh (relayOnWith activeHigh levels) = relayOffWith activeHigh levels
    ∧ RELAY_OFF (RELAY_ON levels) RELAY_PIN = LOW := by
  refine ⟨rfl, ?_, ?_, ?_, ?_, ?_, ?_, ?_, ?_, ?_, ?_, ?_, ?_⟩
  · cases activeHigh <;> simp [relayOnWith, relayOffWith, digitalWrite, lnot, HIGH, LOW]
  · cases activeHigh <;> simp [relayOnWith, relayOffWith, digitalWrite, lnot, HIGH, LOW]
  · cases activeHigh <;> simp [relayOnWith, relayOffWith, digitalWrite, HIGH, LOW]
  · simp [RELAY_ON, relayOnWith, digitalWrite, RELAY_ACTIVE_HIGH]
  · simp [RELAY_OFF, relayOffWith, digitalWrite, RELAY_ACTIVE_HIGH]
  · exact digitalWrite_other _ _ _ _ hp
  · exact digitalWrite_other _ _ _ _ hp
  · exact digitalWrite_other _ _ _ _ hp
  · exact digitalWrite_other _ _ _ _ hp
  · simp [relayOffWith, digitalWrite, deEnergisedLevel]
  · funext q
    simp only [relayOffWith, relayOnWith, digitalWrite]
    split <;> rfl
  · simp [RELAY_OFF, relayOffWith, digitalWrite, RELAY_ACTIVE_HIGH]

/-- C8 with active-low polarity, every pin HIGH beforehand, observed at the
button pin 34. -/
theorem relay_macros_opposite_witness :
    RELAY_PIN = 18
    ∧ relayOnWith false (fun _ => HIGH) RELAY_PIN
        = lnot (relayOffWith false (fun _ => HIGH) RELAY_PIN)
    ∧ relayOffWith false (fun _ => HIGH) RELAY_PIN
        = lnot (relayOnWith false (fun _ => HIGH) RELAY_PIN)
    ∧ relayOnWith false (fun _ => HIGH) RELAY_PIN ≠ relayOffWith false (fun _ => HIGH) RELAY_PIN
    ∧ RELAY_ON (fun _ => HIGH) RELAY_PIN = HIGH
    ∧ RELAY_OFF (fun _ => HIGH) RELAY_PIN = LOW
    ∧ relayOnWith false (fun _ => HIGH) 34 = (fun _ => HIGH) 34
    ∧ relayOffWith false (fun _ => HIGH) 34 = (fun _ => HIGH) 34
    ∧ RELAY_ON (fun _ => HIGH) 34 = (fun _ => HIGH) 34
    ∧ RELAY_OFF (fun _ => HIGH) 34 = (fun _ => HIGH) 34
    ∧ relayOffWith false (relayOnWith false (fun _ => HIGH)) RELAY_PIN = deEnergisedLevel false
    ∧ relayOffWith false (relayOnWith false (fun _ => HIGH)) = relayOffWith false (fun _ => HIGH)
    ∧ RELAY_OFF (RELAY_ON (fun _ => HIGH)) RELAY_PIN = LOW :=
  relay_macros_opposite false (fun _ => HIGH) 34 (by decide)

/-! ## C9: the watchdog period -/

/-- C9, as stated, fails: the worst case of an enrollment is 63000 ms, more
than the watchdog period of 30000 ms. -/
theorem watchdog_does_not_cover_enrollment :
    enrollWorstCase = 63000
    ∧ WATCHDOG_TIMEOUT = 30000
    ∧ ¬ (verifyWorstCase ≤ WATCHDOG_TIMEOUT ∧ enrollWorstCase ≤ WATCHDOG_TIMEOUT) := by
  decide

/-- C9, amended. The watchdog period covers the worst case of a verification
(18000 ms) and the full retry budget of one enrollment capture (30000 ms); it
is shorter than the worst case of a two-capture enrollment (63000 ms). -/
theorem watchdog_covers_verification :
    verifyWorstCase = 18000
    ∧ verifyWorstCase ≤ WATCHDOG_TIMEOUT
    ∧ enrollCaptureWorstCase = 30000
    ∧ enrollCaptureWorstCase ≤ WATCHDOG_TIMEOUT
    ∧ WATCHDOG_TIMEOUT < enrollCaptureWorstCase + MQTT_RESPONSE_TIMEOUT
    ∧ WATCHDOG_TIMEOUT < enrollWorstCase := by
  decide

/-! ## C6: the retry budgets -/

/-- The loop makes at most `remaining` further attempts. -/
theorem captureLoop_attempts_le (results : Nat → CaptureResult) :
    ∀ remaining made : Nat, (captureLoop results remaining made).attempts ≤ made + remaining
  | 0, made => by simp [captureLoop]
  | remaining + 1, made => by
    have ih := captureLoop_attempts_le results remaining (made + 1)
    unfold captureLoop
    split
    · show made + 1 ≤ made + (remaining + 1)
      omega
    · show made + 1 ≤ made + (remaining + 1)
      omega
    · omega

/-- With budget left, the loop makes at least one further attempt. -/
theorem captureLoop_attempts_ge (results : Nat → CaptureResult) :
    ∀ remaining made : Nat, made + 1 ≤ (captureLoop results (remaining + 1) made).attempts
  | 0, made => by
    unfold captureLoop
    split
    · exact Nat.le_refl _
    · exact Nat.le_refl _
    · simp [captureLoop]
  | remaining + 1, made => by
    have ih := captureLoop_attempts_ge results remaining (made + 1)
    unfold captureLoop
    split
    · exact Nat.le_refl _
    · exact Nat.le_refl _
    · omega

/-- C6. The budgets are 3 capture attempts and 2 template build attempts, both
at least 1. A capture makes at least one and at most `MAX_FINGER_RETRY`
attempts, and attempt `n` (numbered from 1) is made on some run exactly when
`n ≤ MAX_FINGER_RETRY`. Two bad images followed by a good one end the capture
with success on attempt 3; a fourth attempt is never made, and three bad
images end the capture with the bad-image error after attempt 3. -/
theorem capture_retry_budget (results : Nat → CaptureResult) (n : Nat) :
    MAX_FINGER_RETRY = 3 ∧ MAX_TEMPLATE_RETRY = 2
    ∧ 1 ≤ MAX_FINGER_RETRY ∧ 1 ≤ MAX_TEMPLATE_RETRY
    ∧ 1 ≤ (capture results).attempts
    ∧ (capture results).attempts ≤ MAX_FINGER_RETRY
    ∧ ((∃ r, attemptMade r n) ↔ (1 ≤ n ∧ n ≤ MAX_FINGER_RETRY))
    ∧ capture (badThenGood 2) = { attempts := 3, error := .ERR_NONE }
    ∧ attemptMade (badThenGood 2) 3
    ∧ ¬ attemptMade results 4
    ∧ capture (badThenGood 3) = { attempts := 3, error := .ERR_SENSOR_BAD_IMAGE } := by
  have hle : ∀ r, (capture r).attempts ≤ MAX_FINGER_RETRY := by
    intro r
    have := captureLoop_attempts_le r MAX_FINGER_RETRY 0
    simpa [capture] using this
  have hge : ∀ r, 1 ≤ (capture r).attempts := by
    intro r
    have := captureLoop_attempts_ge r 2 0
    simpa [capture, MAX_FINGER_RETRY] using this
  have h3 : capture (badThenGood 3) = { attempts := 3, error := .ERR_SENSOR_BAD_IMAGE } := by
    decide
  have h2 : capture (badThenGood 2) = { attempts := 3, error := .ERR_NONE } := by decide
  refine ⟨rfl, rfl, by decide, by decide, hge results, hle results, ?_, h2, ?_, ?_, h3⟩
  · constructor
    · rintro ⟨r, h1, hn⟩
      exact ⟨h1, Nat.le_trans hn (hle r)⟩
    · rintro ⟨h1, hn⟩
      refine ⟨badThenGood 3, h1, ?_⟩
      rw [h3]
      exact hn
  · refine ⟨by decide, ?_⟩
    rw [h2]
  · rintro ⟨_, h4⟩
    have := hle results
    have hm : MAX_FINGER_RETRY = 3 := rfl
    omega

/-! ## C10: the Base64 buffer -/

/-- Length of the padded Base64 encoding: four characters for every started
group of three bytes. -/
theorem encodeBase64_length : ∀ bs : List Nat,
    (encodeBase64 bs).length = 4 * ((bs.length + 2) / 3)
  | [] => rfl
  | [_] => by simp [encodeBase64]
  | [_, _] => by simp [encodeBase64]
  | _ :: _ :: _ :: rest => by
    have ih := encodeBase64_length rest
    simp only [encodeBase64, List.length_cons, ih]
    omega

/-- C10. The padded Base64 encoding of any sequence of `TEMPLATE_SIZE` (512)
bytes has `4 * ceil(512 / 3) = 684` characters; with the terminating NUL that
is 685 bytes, at most `BASE64_BUFFER_SIZE` (1024) and at most
`JSON_BUFFER_SIZE` (2048). -/
theorem base64_template_fits (bs : List Nat) (hlen : bs.length = TEMPLATE_SIZE) :
    (encodeBase64 bs).length = 4 * ((TEMPLATE_SIZE + 2) / 3)
    ∧ (3 * ((TEMPLATE_SIZE + 2) / 3 - 1) < TEMPLATE_SIZE
        ∧ TEMPLATE_SIZE ≤ 3 * ((TEMPLATE_SIZE + 2) / 3))
    ∧ (encodeBase64 bs).length = 684
    ∧ (encodeBase64 bs).length + 1 = encodedTemplateBytes
    ∧ (encodeBase64 bs).length + 1 ≤ BASE64_BUFFER_SIZE
    ∧ (encodeBase64 bs).length + 1 ≤ JSON_BUFFER_SIZE := by
  have h := encodeBase64_length bs
  rw [hlen] at h
  have h684 : 4 * ((TEMPLATE_SIZE + 2) / 3) = 684 := by decide
  refine ⟨h, by decide, by rw [h, h684], ?_, ?_, ?_⟩
  · rw [h]; rfl
  · rw [h, h684]; decide
  · rw [h, h684]; decide

/-- C10 at the template of 512 zero bytes. -/
theorem base64_template_fits_witness :
    (encodeBase64 (List.replicate 512 0)).length = 4 * ((TEMPLATE_SIZE + 2) / 3)
    ∧ (3 * ((TEMPLATE_SIZE + 2) / 3 - 1) < TEMPLATE_SIZE
        ∧ TEMPLATE_SIZE ≤ 3 * ((TEMPLATE_SIZE + 2) / 3))
    ∧ (encodeBase64 (List.replicate 512 0)).length = 684
    ∧ (encodeBase64 (List.replicate 512 0)).length + 1 = encodedTemplateBytes
    ∧ (encodeBase64 (List.replicate 512 0)).length + 1 ≤ BASE64_BUFFER_SIZE
    ∧ (encodeBase64 (List.replicate 512 0)).length + 1 ≤ JSON_BUFFER_SIZE :=
  base64_template_fits (List.replicate 512 0) (List.length_replicate 512 0)

end VeriFynger
